import Mathlib

/-!
Verification development for the MPL tournament frontend.

The definitions below are shallow embeddings of the client-side state
logic of the repository: the auction/bidding page (PlayersPage), the two
context providers (owners, frontend details), the registration forms
(player and owner), the HTTP error-message extraction, and the API
configuration module.  Pure UI rendering is out of scope; every function
here is translated from the corresponding TypeScript handler or effect.
-/

namespace MPL

/-- Category data as formatted by the players API (interface CategoryData). -/
structure CategoryData where
  id : String
  name : String
  basePrice : Int
deriving Repr, DecidableEq

/-- Raw category reference as delivered in the categoryId field of a player
record (shape with fields _id, name, basePrice). -/
structure RawCategory where
  _id : String
  name : String
  basePrice : Int
deriving Repr, DecidableEq

/-- Player record, restricted to the fields read by the embedded logic of
PlayersPage (presentation-only fields such as shirt size or images are
omitted; they are never read by the state transitions). -/
structure PlayerData where
  mobileNumber : String
  firstName : String
  lastName : String
  isSold : Bool
  category : Option CategoryData
  categoryId : Option RawCategory
deriving Repr, DecidableEq

/-- Owner record as exposed by the owners context (fields read by the
auction page logic). -/
structure OwnerData where
  id : String
  name : String
  teamName : Option String
deriving Repr, DecidableEq

/-- Extract the category id of a player: prefer the formatted category
field, fall back to the raw categoryId when its _id is truthy (non-empty),
else the synthetic id for uncategorized players.  Mirrors
getPlayerCategoryId in PlayersPage. -/
def getPlayerCategoryId (player : PlayerData) : String :=
  match player.category with
  | some c => c.id
  | none =>
    match player.categoryId with
    | some raw => if raw._id ≠ "" then raw._id else "uncategorized"
    | none => "uncategorized"

/-- Base price of an (optional) player: formatted category first, then the
raw categoryId (truthiness of the object, not of its _id), defaulting to 0.
Mirrors getBasePrice in PlayersPage. -/
def getBasePrice (player : Option PlayerData) : Int :=
  match player with
  | none => 0
  | some p =>
    match p.category with
    | some c => c.basePrice
    | none =>
      match p.categoryId with
      | some raw => raw.basePrice
      | none => 0

/-- Index of the first element satisfying the predicate, as an Option
(the JavaScript Array.findIndex, with -1 rendered as none). -/
def findIdxO (p : α → Bool) : List α → Option Nat
  | [] => none
  | a :: as => if p a then some 0 else (findIdxO p as).map (· + 1)

/-- Index of the last element satisfying the predicate.  This is the
lookup semantics of the mobile-number-to-index Map built with forEach and
Map.set in PlayersPage, where a later set overwrites an earlier one. -/
def lastIdxO (p : α → Bool) : List α → Option Nat
  | [] => none
  | a :: as =>
    match lastIdxO p as with
    | some j => some (j + 1)
    | none => if p a then some 0 else none

/-- Players of a given category, in list order.  This is the value stored
for that category id in the playersByCategoryMap of PlayersPage (the
forEach grouping preserves list order), with a missing key rendered as the
empty list. -/
def playersInCategory (players : List PlayerData) (categoryId : String) : List PlayerData :=
  players.filter (fun p => getPlayerCategoryId p == categoryId)

/-- Lookup in the playerIndexMap of PlayersPage: mobile number to index of
the last occurrence of that mobile number in the list. -/
def playerIndexMapGet (players : List PlayerData) (mobile : String) : Option Nat :=
  lastIdxO (fun p => p.mobileNumber == mobile) players

/-- Direction argument of findNextPlayerInCategoryOrder. -/
inductive NavDirection
  | next
  | prev
deriving Repr, DecidableEq

/-- Translation of findNextPlayerInCategoryOrder from PlayersPage: starting
from the player at currentIndex, return the index (in the full list) of the
adjacent player inside the same category, or none at the category
boundary or on any lookup failure. -/
def findNextPlayerInCategoryOrder (players : List PlayerData) (currentIndex : Nat)
    (direction : NavDirection) : Option Nat :=
  if players.length = 0 ∨ players.length ≤ currentIndex then none
  else
    match players[currentIndex]? with
    | none => none
    | some currentPlayer =>
      if (playersInCategory players (getPlayerCategoryId currentPlayer)).length = 0 then none
      else
        match findIdxO (fun p => p.mobileNumber == currentPlayer.mobileNumber)
            (playersInCategory players (getPlayerCategoryId currentPlayer)) with
        | none => none
        | some currentIndexInCategory =>
          match direction with
          | .next =>
            if currentIndexInCategory
                < (playersInCategory players (getPlayerCategoryId currentPlayer)).length - 1 then
              match (playersInCategory players
                  (getPlayerCategoryId currentPlayer))[currentIndexInCategory + 1]? with
              | some nextPlayer => playerIndexMapGet players nextPlayer.mobileNumber
              | none => none
            else none
          | .prev =>
            if 0 < currentIndexInCategory then
              match (playersInCategory players
                  (getPlayerCategoryId currentPlayer))[currentIndexInCategory - 1]? with
              | some prevPlayer => playerIndexMapGet players prevPlayer.mobileNumber
              | none => none
            else none

/-- Reformulation of findNextPlayerInCategoryOrder in terms of the focused
player itself; proved equal to it below whenever the focused index is in
range. -/
def findNextSpec (players : List PlayerData) (p : PlayerData)
    (direction : NavDirection) : Option Nat :=
  match findIdxO (fun q => q.mobileNumber == p.mobileNumber)
      (playersInCategory players (getPlayerCategoryId p)) with
  | none => none
  | some k =>
    match direction with
    | .next =>
      if k < (playersInCategory players (getPlayerCategoryId p)).length - 1 then
        match (playersInCategory players (getPlayerCategoryId p))[k + 1]? with
        | some nextPlayer => playerIndexMapGet players nextPlayer.mobileNumber
        | none => none
      else none
    | .prev =>
      if 0 < k then
        match (playersInCategory players (getPlayerCategoryId p))[k - 1]? with
        | some prevPlayer => playerIndexMapGet players prevPlayer.mobileNumber
        | none => none
      else none

/-- Position of a player inside its own category list (first index with the
same mobile number), the quantity findNextPlayerInCategoryOrder computes as
currentIndexInCategory. -/
def categoryPosition (players : List PlayerData) (p : PlayerData) : Option Nat :=
  findIdxO (fun q => q.mobileNumber == p.mobileNumber)
    (playersInCategory players (getPlayerCategoryId p))

/-- Slide direction of the detail modal animation. -/
inductive ModalDirection
  | left
  | right
  | none
deriving Repr, DecidableEq

/-- Payload of the congratulatory overlay (successMessage state). -/
structure SuccessMessage where
  ownerName : String
  playerName : String
  amount : Int
deriving Repr, DecidableEq

/-- State of PlayersPage relevant to the auction flow: the fetched list,
the modal cursor, the bid counter, the overlay payload and the pending
auto-advance timer (successTimeoutRef, holding the id of the scheduled
timeout when one is pending). -/
structure PageState where
  players : List PlayerData
  selectedPlayerIndex : Option Nat
  isModalOpen : Bool
  bidAmount : Int
  successMessage : Option SuccessMessage
  successTimeout : Option Nat
  modalDirection : ModalDirection
deriving Repr, DecidableEq

/-- The selectedPlayer memo of PlayersPage. -/
def selectedPlayer (s : PageState) : Option PlayerData :=
  match s.selectedPlayerIndex with
  | none => none
  | some i =>
    if 0 < s.players.length ∧ i < s.players.length then s.players[i]? else none

/-- The currentBasePrice memo of PlayersPage. -/
def currentBasePrice (s : PageState) : Int :=
  getBasePrice (selectedPlayer s)

/-- Opening the detail modal on a card click: set the bid counter to the
clicked player's base price and focus it (handlePlayerClick). -/
def handlePlayerClick (s : PageState) (playerIndex : Nat) : PageState :=
  match s.players[playerIndex]? with
  | none => s
  | some player =>
    { s with bidAmount := getBasePrice (some player)
             selectedPlayerIndex := some playerIndex
             isModalOpen := true }

/-- Closing the detail modal (handleCloseModal): clear any pending success
timeout, close the modal, drop the cursor, reset the bid counter and the
overlay. -/
def handleCloseModal (s : PageState) : PageState :=
  { s with successTimeout := Option.none
           isModalOpen := false
           selectedPlayerIndex := Option.none
           bidAmount := 0
           successMessage := Option.none }

/-- Category-scoped forward navigation (handleNextPlayer). -/
def handleNextPlayer (s : PageState) : PageState :=
  match s.selectedPlayerIndex with
  | none => s
  | some i =>
    match findNextPlayerInCategoryOrder s.players i .next with
    | none => s
    | some nextIndex =>
      if nextIndex < s.players.length then
        match s.players[nextIndex]? with
        | none => s
        | some nextPlayer =>
          { s with bidAmount := getBasePrice (some nextPlayer)
                   selectedPlayerIndex := some nextIndex
                   modalDirection := .left }
      else s

/-- Category-scoped backward navigation (handlePreviousPlayer). -/
def handlePreviousPlayer (s : PageState) : PageState :=
  match s.selectedPlayerIndex with
  | none => s
  | some i =>
    match findNextPlayerInCategoryOrder s.players i .prev with
    | none => s
    | some prevIndex =>
      if prevIndex < s.players.length then
        match s.players[prevIndex]? with
        | none => s
        | some prevPlayer =>
          { s with bidAmount := getBasePrice (some prevPlayer)
                   selectedPlayerIndex := some prevIndex
                   modalDirection := .right }
      else s

/-- Up arrow key handler: lift the counter to the base price first when it
is below it, then add 500 (ArrowUp branch of handleKeyDown). -/
def handleArrowUp (s : PageState) : PageState :=
  let basePrice := currentBasePrice s
  let currentAmount := if s.bidAmount < basePrice then basePrice else s.bidAmount
  { s with bidAmount := currentAmount + 500 }

/-- Down arrow key handler: subtract 500 but never go below the base price
(ArrowDown branch of handleKeyDown). -/
def handleArrowDown (s : PageState) : PageState :=
  let basePrice := currentBasePrice s
  { s with bidAmount := max basePrice (s.bidAmount - 500) }

/-- Keys handled by the global keydown listener of PlayersPage. -/
inductive Key
  | arrowUp
  | arrowDown
  | escape
  | arrowLeft
  | arrowRight
  | other
deriving Repr, DecidableEq

/-- The global keydown listener: arrows adjust the bid anywhere on the
page; Escape, ArrowLeft and ArrowRight act only while the modal is open. -/
def handleKeyDown (s : PageState) (k : Key) : PageState :=
  match k with
  | .arrowUp => handleArrowUp s
  | .arrowDown => handleArrowDown s
  | .escape => if s.isModalOpen then handleCloseModal s else s
  | .arrowLeft => if s.isModalOpen then handlePreviousPlayer s else s
  | .arrowRight => if s.isModalOpen then handleNextPlayer s else s
  | .other => s

/-- The bid-initialization effect of PlayersPage: while the modal is open
on a focused player, (re)set the counter to that player's base price. -/
def bidInitEffect (s : PageState) : PageState :=
  match selectedPlayer s with
  | some p => if s.isModalOpen then { s with bidAmount := getBasePrice (some p) } else s
  | none => s

/-- Mobile number of the next player in the focused player's category,
computed from the list as it stands at the moment of assignment, exactly
as the success branch of handleOwnerSelect captures it before the refetch. -/
def nextPlayerMobileBefore (players : List PlayerData) (selected : PlayerData) : Option String :=
  let currentCategoryId := getPlayerCategoryId selected
  let playersInSameCategoryBefore := playersInCategory players currentCategoryId
  match findIdxO (fun p => p.mobileNumber == selected.mobileNumber) playersInSameCategoryBefore with
  | none => none
  | some currentIndexInCategory =>
    if currentIndexInCategory < playersInSameCategoryBefore.length - 1 then
      (playersInSameCategoryBefore[currentIndexInCategory + 1]?).map (fun p => p.mobileNumber)
    else none

/-- Body of the 4-second success timeout of handleOwnerSelect: dismiss the
overlay, then look the remembered next player up by mobile number in the
current (refreshed) list; navigate to it when found, otherwise close the
modal; either way the timeout ref is cleared. -/
def advanceAfterSuccess (nextPlayerMobile : Option String) (s : PageState) : PageState :=
  let s1 := { s with successMessage := Option.none }
  match nextPlayerMobile with
  | some m =>
    match findIdxO (fun p => p.mobileNumber == m) s1.players with
    | some nextIndex =>
      match s1.players[nextIndex]? with
      | some nextPlayer =>
        { s1 with bidAmount := getBasePrice (some nextPlayer)
                  selectedPlayerIndex := some nextIndex
                  modalDirection := .left
                  successTimeout := Option.none }
      | none => handleCloseModal s1
    | none => handleCloseModal s1
  | none => handleCloseModal s1

/-- The timer scheduled by the success branch of handleOwnerSelect. -/
structure SuccessTimer where
  delayMs : Nat
  nextPlayerMobile : Option String
deriving Repr, DecidableEq

/-- Success branch of handleOwnerSelect, from the point where the update
response reported success: remember the next-in-category mobile number
from the pre-refetch list, replace the list with the refetched data, and,
when the clicked owner is found in the roster, show the overlay and
schedule the 4000 ms auto-advance timer.  Returns the new page state and
the scheduled timer, if any. -/
def handleOwnerSelectSuccess (s : PageState) (assignedOwner : Option OwnerData)
    (refreshedPlayers : List PlayerData) (newTimerId : Nat) : PageState × Option SuccessTimer :=
  match selectedPlayer s with
  | none => (s, Option.none)
  | some sel =>
    let nextMobile := nextPlayerMobileBefore s.players sel
    let s1 := { s with players := refreshedPlayers }
    match assignedOwner with
    | some owner =>
      ({ s1 with
          successMessage := some
            { ownerName := owner.name
              playerName := sel.firstName ++ " " ++ sel.lastName
              amount := s.bidAmount }
          successTimeout := some newTimerId },
       some { delayMs := 4000, nextPlayerMobile := nextMobile })
    | none => (s1, Option.none)

/-- Firing of a scheduled success timer: the browser runs the callback only
if the timeout was not cleared, which in PlayersPage is exactly the case
where successTimeoutRef still holds this timer's id (handleCloseModal and
re-assignment both clear the old id first). -/
def fireSuccessTimer (timerId : Nat) (timer : SuccessTimer) (s : PageState) : PageState :=
  if s.successTimeout = some timerId then advanceAfterSuccess timer.nextPlayerMobile s else s

/-- Observable effects of the success branch of handleOwnerSelect, in
source statement order: the awaited Promise.all of the players refetch and
the owners refresh, then (when the clicked owner was found in the roster)
the overlay and the 4000 ms timeout. -/
inductive OwnerSelectAction
  | refetchPlayers
  | refreshOwners
  | showSuccessOverlay
  | startSuccessTimer (delayMs : Nat)
deriving Repr, DecidableEq

/-- Effect sequence of the success branch of handleOwnerSelect, in the
statement order of the source. -/
def ownerSelectSuccessActions (ownerFound : Bool) : List OwnerSelectAction :=
  [.refetchPlayers, .refreshOwners] ++
    (if ownerFound then [.showSuccessOverlay, .startSuccessTimer 4000] else [])

/-- JSON error body shape probed by the error branches (fields message and
error, each possibly absent). -/
structure HttpErrorBody where
  message : Option String
  error : Option String
deriving Repr, DecidableEq

/-- A non-2xx HTTP response as observed by the error branches: status code,
status text, and the body when it parses as JSON (none models a parse
failure). -/
structure HttpErrorResponse where
  statusCode : Nat
  statusText : String
  body : Option HttpErrorBody
deriving Repr, DecidableEq

/-- JavaScript string truthiness fallback: the value when present and
non-empty, else the fallback (models the logical-or chains of the source). -/
def jsOr (v : Option String) (fallback : String) : String :=
  match v with
  | some s => if s = "" then fallback else s
  | none => fallback

/-- Error-message extraction pattern shared by handleOwnerSelect and the
owner registration submit: message field, else error field, else the given
default when the body parses as JSON; statusText, else the default when it
does not. -/
def extractHttpErrorMessage (defaultMsg : String) (resp : HttpErrorResponse) : String :=
  match resp.body with
  | some b => jsOr b.message (jsOr b.error defaultMsg)
  | none => jsOr (some resp.statusText) defaultMsg

/-- Message surfaced by the non-ok branch of handleOwnerSelect. -/
def handleOwnerSelectErrorMessage (resp : HttpErrorResponse) : String :=
  extractHttpErrorMessage "Failed to assign owner" resp

/-- Message surfaced by the non-ok branch of the owner registration
submit handler. -/
def ownerRegistrationErrorMessage (resp : HttpErrorResponse) : String :=
  extractHttpErrorMessage "Failed to submit owner registration" resp

/-- Message surfaced by the non-ok branch of fetchPlayers in PlayersPage:
a fixed string, with no extraction from the response at all. -/
def fetchPlayersErrorMessage (_resp : HttpErrorResponse) : String :=
  "Failed to fetch players"

/-- Result of running a provider's mount effect: whether a fetch was
issued, the value of the one-shot guard afterwards, and the polling
interval installed (in milliseconds), if any. -/
structure MountResult where
  didFetch : Bool
  fetchedFlag : Bool
  pollIntervalMs : Option Nat
deriving Repr, DecidableEq

/-- Whether a tick of the owners polling interval issues a silent fetch:
only when the document is not hidden. -/
def ownersPollTick (documentHidden : Bool) : Bool :=
  !documentHidden

/-- Mount effect of OwnersProvider: guarded one-shot fetch plus a 3000 ms
polling interval. -/
def ownersProviderMount (alreadyFetched : Bool) : MountResult :=
  if alreadyFetched then
    { didFetch := false, fetchedFlag := true, pollIntervalMs := Option.none }
  else
    { didFetch := true, fetchedFlag := true, pollIntervalMs := some 3000 }

/-- Mount effect of FrontendDetailsProvider: guarded one-shot fetch and
nothing else (the effect installs no interval). -/
def frontendDetailsProviderMount (alreadyFetched : Bool) : MountResult :=
  if alreadyFetched then
    { didFetch := false, fetchedFlag := true, pollIntervalMs := Option.none }
  else
    { didFetch := true, fetchedFlag := true, pollIntervalMs := Option.none }

/-- Metadata of an uploaded file as checked by the forms. -/
structure FileMeta where
  size : Nat
  mimeType : String
deriving Repr, DecidableEq

/-- Field values of the player registration form. -/
structure RegFormData where
  firstName : String
  lastName : String
  mobileNumber : String
  tshirtSize : String
  tshirtName : String
  tshirtNumber : String
  role : String
  profileFile : Option FileMeta
  aadhaarFile : Option FileMeta
  paymentFile : Option FileMeta
deriving Repr, DecidableEq

/-- The mobileNumberStatus state of the player registration form. -/
inductive MobileStatus
  | idle
  | checking
  | exists_
  | available
deriving Repr, DecidableEq

/-- Inline field errors, as an association from field key to message (the
errors record of the forms; each validation writes at most one entry per
key). -/
abbrev FormErrors := List (String × String)

/-- Record an error for a field, replacing any previous entry for it. -/
def setFormError (errors : FormErrors) (key msg : String) : FormErrors :=
  (key, msg) :: errors.filter (fun e => e.fst != key)

/-- Delete the entry for a field. -/
def removeFormError (errors : FormErrors) (key : String) : FormErrors :=
  errors.filter (fun e => e.fst != key)

/-- Message recorded for a field, if any. -/
def lookupFormError (errors : FormErrors) (key : String) : Option String :=
  (errors.find? (fun e => e.fst == key)).map (fun e => e.snd)

/-- Entry list contributed by one field's validation. -/
def errEntry (key : String) (v : Option String) : FormErrors :=
  match v with
  | some msg => [(key, msg)]
  | none => []

/-- Model of the JavaScript string trim: drop whitespace from both ends
(written over the character list so that it evaluates inside the kernel). -/
def jsTrim (s : String) : String :=
  String.mk (((s.toList.dropWhile Char.isWhitespace).reverse.dropWhile
    Char.isWhitespace).reverse)

/-- Split a character list on a separator character (the behaviour of the
JavaScript split with a one-character separator). -/
def splitOnChar (c : Char) : List Char → List (List Char)
  | [] => [[]]
  | x :: xs =>
    match splitOnChar c xs with
    | [] => if x = c then [[], []] else [[x]]
    | h :: t => if x = c then [] :: h :: t else (x :: h) :: t

/-- The test of the regular expression matching exactly ten digits. -/
def regexDigits10 (s : String) : Bool :=
  decide (s.length = 10) && s.toList.all Char.isDigit

/-- The test of the regular expression matching one to three digits. -/
def regexDigits1to3 (s : String) : Bool :=
  decide (1 ≤ s.length) && decide (s.length ≤ 3) && s.toList.all Char.isDigit

/-- The inline error shown for an already-registered mobile number. -/
def alreadyRegisteredMsg : String :=
  "This mobile number is already registered"

/-- Mobile-number branch of the player form's validateForm: required, then
exact length, then digits-only, then the server-reported existence check. -/
def playerMobileError (mobileNumber : String) (status : MobileStatus) : Option String :=
  if (jsTrim mobileNumber) = "" then some "Mobile number is required"
  else if mobileNumber.length ≠ 10 then
    some ("Mobile number must be exactly 10 digits (" ++ toString mobileNumber.length
      ++ " digits entered)")
  else if !(regexDigits10 mobileNumber) then some "Mobile number must contain only digits"
  else if status = .exists_ then some alreadyRegisteredMsg
  else none

/-- T-shirt-name branch of the player form's validateForm. -/
def playerTshirtNameError (s : String) : Option String :=
  if (jsTrim s) = "" then some "Name on T-shirt is required"
  else if 15 < (jsTrim s).length then some "Name on T-shirt should be maximum 15 characters"
  else none

/-- T-shirt-number branch of the player form's validateForm. -/
def playerTshirtNumberError (s : String) : Option String :=
  if (jsTrim s) = "" then some "Number on T-shirt is required"
  else if !(regexDigits1to3 (jsTrim s)) then some "Please enter a valid number (1-999)"
  else none

/-- validateForm of the player registration form: one entry per offending
field (the JavaScript version builds an object keyed by field; distinct
keys make the association list an exact model). -/
def playerValidateForm (fd : RegFormData) (mobileStatus : MobileStatus) : FormErrors :=
  errEntry "firstName" (if (jsTrim fd.firstName) = "" then some "First name is required" else none) ++
  errEntry "lastName" (if (jsTrim fd.lastName) = "" then some "Last name is required" else none) ++
  errEntry "mobileNumber" (playerMobileError fd.mobileNumber mobileStatus) ++
  errEntry "tshirtSize" (if fd.tshirtSize = "" then some "Please select a T-shirt size" else none) ++
  errEntry "tshirtName" (playerTshirtNameError fd.tshirtName) ++
  errEntry "tshirtNumber" (playerTshirtNumberError fd.tshirtNumber) ++
  errEntry "role" (if fd.role = "" then some "Please select your role" else none) ++
  errEntry "aadhaarFile" (if fd.aadhaarFile = Option.none then some "Aadhaar card upload is required" else none) ++
  errEntry "profileFile" (if fd.profileFile = Option.none then some "Profile picture is required" else none) ++
  errEntry "paymentFile" (if fd.paymentFile = Option.none then some "Payment screenshot is required" else none)

/-- State of the player registration form around submission. -/
structure RegFormState where
  formData : RegFormData
  errors : FormErrors
  mobileNumberStatus : MobileStatus
  isSubmitting : Bool
  showSarcasmModal : Bool
deriving Repr, DecidableEq

/-- Outcome of a submit handler: resulting form state and whether a
network request was issued. -/
structure SubmitOutcome where
  state : RegFormState
  networkRequestIssued : Bool
deriving Repr, DecidableEq

/-- handleSubmit of the player registration form in its registration-closed
variant: prevent the default, open the closed-registration modal, and do
nothing else; in particular it neither validates nor issues any request. -/
def handleSubmitClosed (s : RegFormState) : SubmitOutcome :=
  { state := { s with showSarcasmModal := true, isSubmitting := false }
    networkRequestIssued := false }

/-- handleSubmit of the full player registration form variant
(components/RegistrationForm.tsx): record the validation errors; when any
are present return before any request, otherwise POST the multipart
payload. -/
def handleSubmitFull (s : RegFormState) : SubmitOutcome :=
  let newErrors := playerValidateForm s.formData s.mobileNumberStatus
  if newErrors.isEmpty then
    { state := { s with errors := newErrors, isSubmitting := true }
      networkRequestIssued := true }
  else
    { state := { s with errors := newErrors }
      networkRequestIssued := false }

/-- File-size gate of the player form's handleFileChange: an oversized file
records the inline size error for the field and is not stored; an accepted
file clears the field's error.  Returns the updated errors and whether the
file was stored. -/
def playerHandleFileChange (errors : FormErrors) (key : String) (f : FileMeta) :
    FormErrors × Bool :=
  if 5 * 1024 * 1024 < f.size then
    (setFormError errors key "File size should be less than 5MB", false)
  else
    (removeFormError errors key, true)

/-- Field values of the owner registration form. -/
structure OwnerFormData where
  name : String
  email : String
  phone : String
  bio : String
  teamName : String
  season : String
  purseValue : String
  imageFile : Option FileMeta
deriving Repr, DecidableEq

/-- The test of the email regular expression of the owner form: a match is
a decomposition local at-sign domain where the whole string has no
whitespace, exactly one at-sign with non-empty local part, and the domain
contains a dot that is neither its first nor its last character. -/
def emailValid (s : String) : Bool :=
  (s.toList.all (fun c => !c.isWhitespace)) &&
  (match splitOnChar '@' s.toList with
   | [localPart, domain] =>
     !localPart.isEmpty &&
     ((List.range domain.length).any (fun k =>
        decide (domain.getD k ' ' = '.') && decide (k ≠ 0) && decide (k ≠ domain.length - 1)))
   | _ => false)

/-- Non-negative numeric test standing for the parseFloat check of the
owner form (accepts decimal digit strings with at most one point; a
minus sign fails here exactly as a negative parse fails the source's
non-negativity check). -/
def isNumericNonNeg (s : String) : Bool :=
  match splitOnChar '.' s.toList with
  | [a] => !a.isEmpty && a.all Char.isDigit
  | [a, b] => !a.isEmpty && a.all Char.isDigit && !b.isEmpty && b.all Char.isDigit
  | _ => false

/-- Accepted MIME types of the owner form's image upload. -/
def validImageTypes : List String :=
  ["image/jpeg", "image/jpg", "image/png", "image/webp"]

/-- Image branch of the owner form's validateForm: required; for a present
file the type check runs first and the size check second, the later entry
overwriting the earlier one on the same key. -/
def ownerImageError (f : Option FileMeta) : Option String :=
  match f with
  | none => some "Image file is required"
  | some file =>
    if 5 * 1024 * 1024 < file.size then some "Image file size must be less than 5MB"
    else if !(validImageTypes.contains file.mimeType) then
      some "Please upload a valid image file (JPEG, PNG, or WebP)"
    else none

/-- Phone branch of the owner form's validateForm. -/
def ownerPhoneError (phone : String) : Option String :=
  if (jsTrim phone) = "" then some "Phone number is required"
  else if phone.length ≠ 10 then
    some ("Phone number must be exactly 10 digits (" ++ toString phone.length
      ++ " digits entered)")
  else if !(regexDigits10 phone) then some "Phone number must contain only digits"
  else none

/-- Email branch of the owner form's validateForm. -/
def ownerEmailError (email : String) : Option String :=
  if (jsTrim email) = "" then some "Email is required"
  else if !(emailValid email) then some "Please enter a valid email address"
  else none

/-- Bio branch of the owner form's validateForm. -/
def ownerBioError (bio : String) : Option String :=
  if (jsTrim bio) = "" then some "Bio is required"
  else if (jsTrim bio).length < 10 then some "Bio must be at least 10 characters long"
  else none

/-- Purse-value branch of the owner form's validateForm. -/
def ownerPurseError (purseValue : String) : Option String :=
  if (jsTrim purseValue) = "" then some "Purse value is required"
  else if !(isNumericNonNeg purseValue) then
    some "Purse value must be a valid positive number"
  else none

/-- validateForm of the owner registration form. -/
def ownerValidateForm (fd : OwnerFormData) : FormErrors :=
  errEntry "name" (if (jsTrim fd.name) = "" then some "Name is required" else none) ++
  errEntry "email" (ownerEmailError fd.email) ++
  errEntry "phone" (ownerPhoneError fd.phone) ++
  errEntry "bio" (ownerBioError fd.bio) ++
  errEntry "teamName" (if (jsTrim fd.teamName) = "" then some "Team name is required" else none) ++
  errEntry "season" (if (jsTrim fd.season) = "" then some "Season is required" else none) ++
  errEntry "purseValue" (ownerPurseError fd.purseValue) ++
  errEntry "imageFile" (ownerImageError fd.imageFile)

/-- Outcome of the owner form's handleSubmit. -/
structure OwnerSubmitOutcome where
  errors : FormErrors
  networkRequestIssued : Bool
deriving Repr, DecidableEq

/-- handleSubmit of the owner registration form: record the validation
errors; return before any request when validation fails, otherwise POST
the multipart payload. -/
def ownerHandleSubmit (fd : OwnerFormData) : OwnerSubmitOutcome :=
  let newErrors := ownerValidateForm fd
  if newErrors.isEmpty then
    { errors := newErrors, networkRequestIssued := true }
  else
    { errors := newErrors, networkRequestIssued := false }

/-- Cases in which the claim about invalid submissions applies to the owner
form: a required field left empty, or an uploaded file breaking the
type or size constraint, tagged by the offending field key. -/
def ownerRequiredViolation (fd : OwnerFormData) (k : String) : Prop :=
  (k = "name" ∧ (jsTrim fd.name) = "") ∨
  (k = "email" ∧ (jsTrim fd.email) = "") ∨
  (k = "phone" ∧ (jsTrim fd.phone) = "") ∨
  (k = "bio" ∧ (jsTrim fd.bio) = "") ∨
  (k = "teamName" ∧ (jsTrim fd.teamName) = "") ∨
  (k = "season" ∧ (jsTrim fd.season) = "") ∨
  (k = "purseValue" ∧ (jsTrim fd.purseValue) = "") ∨
  (k = "imageFile" ∧
    (fd.imageFile = Option.none ∨
     ∃ f, fd.imageFile = some f ∧
       (5 * 1024 * 1024 < f.size ∨ validImageTypes.contains f.mimeType = false)))

/-- Cases in which the claim about invalid submissions applies to the
player form: a required field left empty (an oversized file is rejected at
selection time by handleFileChange and therefore shows up here as a
missing file), tagged by the offending field key. -/
def playerRequiredViolation (fd : RegFormData) (k : String) : Prop :=
  (k = "firstName" ∧ (jsTrim fd.firstName) = "") ∨
  (k = "lastName" ∧ (jsTrim fd.lastName) = "") ∨
  (k = "mobileNumber" ∧ (jsTrim fd.mobileNumber) = "") ∨
  (k = "tshirtSize" ∧ fd.tshirtSize = "") ∨
  (k = "tshirtName" ∧ (jsTrim fd.tshirtName) = "") ∨
  (k = "tshirtNumber" ∧ (jsTrim fd.tshirtNumber) = "") ∨
  (k = "role" ∧ fd.role = "") ∨
  (k = "aadhaarFile" ∧ fd.aadhaarFile = Option.none) ∨
  (k = "profileFile" ∧ fd.profileFile = Option.none) ∨
  (k = "paymentFile" ∧ fd.paymentFile = Option.none)

/-- Body of the check-mobile response (a JSON object whose exists field may
be absent; none at the outer level models a body that fails to parse). -/
structure CheckMobileBody where
  existsFlag : Option Bool
deriving Repr, DecidableEq

/-- A completed check-mobile response. -/
structure CheckMobileResponse where
  ok : Bool
  statusCode : Nat
  body : Option CheckMobileBody
deriving Repr, DecidableEq

/-- Mobile-check substate of the registration form. -/
structure CheckMobileState where
  mobileNumberStatus : MobileStatus
  errors : FormErrors
deriving Repr, DecidableEq

/-- Clear the already-registered inline error if and only if it is the one
currently recorded (the conditional delete of the source). -/
def clearAlreadyRegistered (errors : FormErrors) : FormErrors :=
  if lookupFormError errors "mobileNumber" = some alreadyRegisteredMsg then
    removeFormError errors "mobileNumber"
  else errors

/-- Debounced check-mobile response handler of the registration form,
covering the ok branch (exists flag truthy or not), the non-ok branch with
a parsed body (exists strictly false or a 404 count as available), and the
parse-failure branch (404 counts as available, everything else resets to
idle without touching the errors). -/
def applyCheckMobileResponse (resp : CheckMobileResponse) (s : CheckMobileState) :
    CheckMobileState :=
  if resp.ok then
    match resp.body with
    | some b =>
      if b.existsFlag = some true then
        { mobileNumberStatus := .exists_
          errors := setFormError s.errors "mobileNumber" alreadyRegisteredMsg }
      else
        { mobileNumberStatus := .available
          errors := clearAlreadyRegistered s.errors }
    | none => { s with mobileNumberStatus := .idle }
  else
    match resp.body with
    | some b =>
      if b.existsFlag = some false ∨ resp.statusCode = 404 then
        { mobileNumberStatus := .available
          errors := clearAlreadyRegistered s.errors }
      else { s with mobileNumberStatus := .idle }
    | none =>
      if resp.statusCode = 404 then { s with mobileNumberStatus := .available }
      else { s with mobileNumberStatus := .idle }

/-- Named endpoints of the remote data gateway.  The register, details and
checkMobile entries are taken from the apiConfig source in the repository.
Modelled from the spec: the owners, owner, players and frontendDetails
entries of the current apiConfig.ts, which is absent from the source tree
(only its callers appear there), following the api path convention of the
file and the endpoint list of the spec. -/
inductive Endpoint
  | register
  | details
  | checkMobile
  | owners
  | owner
  | players
  | frontendDetails
deriving Repr, DecidableEq

/-- Path of each named endpoint (see the Endpoint doc comment for which
entries are modelled from the spec). -/
def endpointPath : Endpoint → String
  | .register => "/api/register"
  | .details => "/api/details"
  | .checkMobile => "/api/check-mobile"
  | .owners => "/api/owners"
  | .owner => "/api/owner"
  | .players => "/api/players"
  | .frontendDetails => "/api/frontend-details"

/-- The ApiConfig shape: a base URL plus the endpoint table. -/
structure ApiConfig where
  baseUrl : String
  endpoints : Endpoint → String

/-- Development base URL of apiConfig. -/
def developmentBaseUrl : String := "http://localhost:4000"

/-- Production base URL of apiConfig. -/
def productionBaseUrl : String := "https://mpl-backend-3iiq.onrender.com"

/-- Environment-driven selection of the active configuration: an explicit
URL override wins, else the opt-in localhost flag, else production. -/
def selectApiConfig (envApiUrl : Option String) (useLocalhostVar : String) : ApiConfig :=
  match envApiUrl with
  | some url => { baseUrl := url, endpoints := endpointPath }
  | none =>
    if useLocalhostVar = "true" then
      { baseUrl := developmentBaseUrl, endpoints := endpointPath }
    else
      { baseUrl := productionBaseUrl, endpoints := endpointPath }

/-- getApiUrl: base URL concatenated with the endpoint path. -/
def getApiUrl (cfg : ApiConfig) (endpoint : Endpoint) : String :=
  cfg.baseUrl ++ cfg.endpoints endpoint

/-- Query-string encoding of URLSearchParams for plain key-value pairs. -/
def encodeQueryParams (params : List (String × String)) : String :=
  String.intercalate "&" (params.map (fun p => p.fst ++ "=" ++ p.snd))

/-- getApiUrlWithParams: the endpoint URL with the encoded query string
appended after a question mark. -/
def getApiUrlWithParams (cfg : ApiConfig) (endpoint : Endpoint)
    (params : List (String × String)) : String :=
  getApiUrl cfg endpoint ++ "?" ++ encodeQueryParams params

/-- Sample category used by concrete instances. -/
def sampleCategory : CategoryData :=
  { id := "gold", name := "Gold", basePrice := 1000 }

/-- Sample player A (first of its category in the loaded list). -/
def samplePlayerA : PlayerData :=
  { mobileNumber := "9000000001", firstName := "Asha", lastName := "Rao"
    isSold := false, category := some sampleCategory, categoryId := Option.none }

/-- Sample player B (second of the same category). -/
def samplePlayerB : PlayerData :=
  { mobileNumber := "9000000002", firstName := "Biju", lastName := "Nair"
    isSold := false, category := some sampleCategory, categoryId := Option.none }

/-- Sample owner. -/
def sampleOwner : OwnerData :=
  { id := "o1", name := "Falcons", teamName := some "Falcons XI" }

/-- Sample auction page state: modal open on player A. -/
def sampleAuctionState : PageState :=
  { players := [samplePlayerA, samplePlayerB]
    selectedPlayerIndex := some 0
    isModalOpen := true
    bidAmount := 1500
    successMessage := Option.none
    successTimeout := Option.none
    modalDirection := .none }

/-- Sample auction page state: modal open on player B, the last player of
its category. -/
def sampleAuctionStateLast : PageState :=
  { players := [samplePlayerA, samplePlayerB]
    selectedPlayerIndex := some 1
    isModalOpen := true
    bidAmount := 1000
    successMessage := Option.none
    successTimeout := Option.none
    modalDirection := .none }

/-- Sample player registration form data with the first name left empty
and everything else filled in. -/
def cexPlayerFormData : RegFormData :=
  { firstName := "", lastName := "Rao", mobileNumber := "9876543210"
    tshirtSize := "M", tshirtName := "RAO", tshirtNumber := "7", role := "Batsman"
    profileFile := some { size := 1024, mimeType := "image/png" }
    aadhaarFile := some { size := 1024, mimeType := "image/png" }
    paymentFile := some { size := 1024, mimeType := "image/png" } }

/-- Sample form state around the empty-first-name data. -/
def cexPlayerFormState : RegFormState :=
  { formData := cexPlayerFormData, errors := [], mobileNumberStatus := .idle
    isSubmitting := false, showSarcasmModal := false }

/-- Sample fully valid player registration form data. -/
def validPlayerFormData : RegFormData :=
  { firstName := "Asha", lastName := "Rao", mobileNumber := "9876543210"
    tshirtSize := "M", tshirtName := "ASHA", tshirtNumber := "7", role := "Batsman"
    profileFile := some { size := 1024, mimeType := "image/png" }
    aadhaarFile := some { size := 1024, mimeType := "image/png" }
    paymentFile := some { size := 1024, mimeType := "image/png" } }

/-- Sample form state: valid data, server confirmed the number available. -/
def validPlayerFormState : RegFormState :=
  { formData := validPlayerFormData, errors := [], mobileNumberStatus := .available
    isSubmitting := false, showSarcasmModal := false }

/-- Sample form state: valid data, server reported the number existing. -/
def existsPlayerFormState : RegFormState :=
  { formData := validPlayerFormData, errors := [], mobileNumberStatus := .exists_
    isSubmitting := false, showSarcasmModal := false }

/-- Sample owner registration form data with the name left empty. -/
def cexOwnerFormData : OwnerFormData :=
  { name := "", email := "asha@example.com", phone := "9876543210"
    bio := "A long enough bio.", teamName := "Falcons XI", season := "Season 2"
    purseValue := "100000", imageFile := some { size := 1024, mimeType := "image/png" } }

end MPL

namespace MPL

theorem getElem?_some_lt {α : Type} {l : List α} {n : Nat} {a : α}
    (h : l[n]? = some a) : n < l.length := by
  induction l generalizing n with
  | nil => simp at h
  | cons x xs ih =>
    cases n with
    | zero => simp
    | succ n => simpa using Nat.succ_lt_succ (ih (by simpa using h))

theorem mem_of_getElem?_eq_some {α : Type} {l : List α} {n : Nat} {a : α}
    (h : l[n]? = some a) : a ∈ l := by
  induction l generalizing n with
  | nil => simp at h
  | cons x xs ih =>
    cases n with
    | zero => simp at h; simp [h]
    | succ n => exact List.mem_cons_of_mem _ (ih (by simpa using h))

theorem findIdxO_some {α : Type} {p : α → Bool} {l : List α} {j : Nat}
    (h : findIdxO p l = some j) : ∃ a, l[j]? = some a ∧ p a = true := by
  induction l generalizing j with
  | nil => simp [findIdxO] at h
  | cons a as ih =>
    by_cases hpa : p a
    · simp [findIdxO, hpa] at h
      subst h
      exact ⟨a, by simp, hpa⟩
    · simp [findIdxO, hpa] at h
      obtain ⟨j', hj', rfl⟩ := h
      obtain ⟨b, hb, hpb⟩ := ih hj'
      exact ⟨b, by simpa using hb, hpb⟩

theorem lastIdxO_some {α : Type} {p : α → Bool} {l : List α} {j : Nat}
    (h : lastIdxO p l = some j) : ∃ a, l[j]? = some a ∧ p a = true := by
  induction l generalizing j with
  | nil => simp [lastIdxO] at h
  | cons a as ih =>
    unfold lastIdxO at h
    cases ht : lastIdxO p as with
    | some j' =>
      rw [ht] at h
      obtain rfl : j' + 1 = j := by simpa using h
      obtain ⟨b, hb, hpb⟩ := ih ht
      exact ⟨b, by simpa using hb, hpb⟩
    | none =>
      rw [ht] at h
      by_cases hpa : p a
      · simp [hpa] at h
        subst h
        exact ⟨a, by simp, hpa⟩
      · simp [hpa] at h

theorem lastIdxO_eq_none {α : Type} {p : α → Bool} {l : List α}
    (h : ∀ a ∈ l, p a = false) : lastIdxO p l = none := by
  induction l with
  | nil => rfl
  | cons a as ih =>
    unfold lastIdxO
    rw [ih (fun x hx => h x (List.mem_cons_of_mem _ hx))]
    simp [h a (List.mem_cons_self a as)]

theorem lastIdxO_eq_findIdxO_of_key_nodup {α : Type} (f : α → String) (m : String) :
    ∀ (l : List α), (l.map f).Nodup →
      lastIdxO (fun a => f a == m) l = findIdxO (fun a => f a == m) l := by
  intro l
  induction l with
  | nil => intro _; rfl
  | cons a as ih =>
    intro hnd
    rw [List.map_cons, List.nodup_cons] at hnd
    obtain ⟨hna, hnd'⟩ := hnd
    by_cases hfa : f a = m
    · have hnone : lastIdxO (fun x => f x == m) as = none := by
        apply lastIdxO_eq_none
        intro x hx
        by_contra hcontra
        have hfx : f x = m := by
          have := Bool.not_eq_false _ ▸ hcontra
          simpa using this
        exact hna (hfa ▸ hfx ▸ List.mem_map_of_mem f hx)
      unfold lastIdxO findIdxO
      rw [hnone]
      simp [hfa]
    · unfold lastIdxO findIdxO
      rw [ih hnd']
      cases hfi : findIdxO (fun x => f x == m) as with
      | some j => simp [hfa]
      | none => simp [hfa]

theorem key_nodup_mem_unique {α : Type} (f : α → String) {l : List α}
    (h : (l.map f).Nodup) {x y : α} (hx : x ∈ l) (hy : y ∈ l) (hxy : f x = f y) :
    x = y := by
  induction l with
  | nil => simp at hx
  | cons a as ih =>
    rw [List.map_cons, List.nodup_cons] at h
    obtain ⟨hna, hnd'⟩ := h
    rcases List.mem_cons.mp hx with rfl | hx'
    · rcases List.mem_cons.mp hy with rfl | hy'
      · rfl
      · exact absurd (hxy ▸ List.mem_map_of_mem f hy') hna
    · rcases List.mem_cons.mp hy with rfl | hy'
      · exact absurd (hxy ▸ List.mem_map_of_mem f hx') hna
      · exact ih hnd' hx' hy'

theorem key_nodup_getElem?_inj {α : Type} (f : α → String) {l : List α}
    (h : (l.map f).Nodup) {k1 k2 : Nat} {x1 x2 : α}
    (h1 : l[k1]? = some x1) (h2 : l[k2]? = some x2) (hk : f x1 = f x2) :
    k1 = k2 := by
  induction l generalizing k1 k2 with
  | nil => simp at h1
  | cons a as ih =>
    rw [List.map_cons, List.nodup_cons] at h
    obtain ⟨hna, hnd'⟩ := h
    cases k1 with
    | zero =>
      cases k2 with
      | zero => rfl
      | succ k2 =>
        obtain rfl : a = x1 := by simpa using h1
        have hx2 : x2 ∈ as := mem_of_getElem?_eq_some (by simpa using h2)
        exact absurd (hk ▸ List.mem_map_of_mem f hx2) hna
    | succ k1 =>
      cases k2 with
      | zero =>
        obtain rfl : a = x2 := by simpa using h2
        have hx1 : x1 ∈ as := mem_of_getElem?_eq_some (by simpa using h1)
        exact absurd (hk ▸ List.mem_map_of_mem f hx1) hna
      | succ k2 =>
        have := ih hnd' (by simpa using h1) (by simpa using h2)
        omega

theorem currentBasePrice_handleArrowDown (s : PageState) :
    currentBasePrice (handleArrowDown s) = currentBasePrice s := rfl

theorem currentBasePrice_iterate_down (s : PageState) (n : Nat) :
    currentBasePrice (handleArrowDown^[n] s) = currentBasePrice s := by
  induction n with
  | zero => rfl
  | succ n ih =>
    rw [Function.iterate_succ_apply', currentBasePrice_handleArrowDown, ih]

/-- C2: while the detail modal shows a player whose category base price is
P, the bid counter is initialized to P when the focused player changes
(both through the initialization effect and through a card click), a Down
arrow press sets it to the maximum of P and the current value minus 500,
and after one or more Down presses the counter never lies below P. -/
theorem bidCounter_floor_c2 (s : PageState) (n k : Nat) (q : PlayerData) :
    (s.isModalOpen = true → (selectedPlayer s).isSome = true →
      (bidInitEffect s).bidAmount = currentBasePrice s) ∧
    ((handleArrowDown s).bidAmount = max (currentBasePrice s) (s.bidAmount - 500)) ∧
    (s.players[k]? = some q → (handlePlayerClick s k).bidAmount = getBasePrice (some q)) ∧
    (0 < n → currentBasePrice s ≤ (handleArrowDown^[n] s).bidAmount) := by
  refine ⟨?_, rfl, ?_, ?_⟩
  · intro hopen hsome
    cases hsp : selectedPlayer s with
    | none => rw [hsp] at hsome; simp at hsome
    | some p => simp [bidInitEffect, hsp, hopen, currentBasePrice]
  · intro hk
    unfold handlePlayerClick
    rw [hk]
  · intro hn
    cases n with
    | zero => omega
    | succ n =>
      rw [Function.iterate_succ_apply']
      calc currentBasePrice s
          = currentBasePrice (handleArrowDown^[n] s) :=
            (currentBasePrice_iterate_down s n).symm
        _ ≤ (handleArrowDown (handleArrowDown^[n] s)).bidAmount :=
            le_max_left _ _

/-- C2 witness: concrete state with base price 1000 and bid 1500. -/
theorem bidCounter_floor_c2_witness :
    currentBasePrice sampleAuctionState
      ≤ (handleArrowDown^[3] sampleAuctionState).bidAmount ∧
    (bidInitEffect sampleAuctionState).bidAmount = currentBasePrice sampleAuctionState :=
  ⟨(bidCounter_floor_c2 sampleAuctionState 3 0 samplePlayerA).2.2.2 (by decide),
   (bidCounter_floor_c2 sampleAuctionState 3 0 samplePlayerA).1 rfl rfl⟩

/-- C4: one Up arrow press adds exactly 500 to the displayed bid when it is
at least the base price, and sets it to base price plus 500 when it is
below the base price. -/
theorem arrowUp_increment_c4 (s : PageState) :
    (currentBasePrice s ≤ s.bidAmount → (handleArrowUp s).bidAmount = s.bidAmount + 500) ∧
    (s.bidAmount < currentBasePrice s → (handleArrowUp s).bidAmount = currentBasePrice s + 500) := by
  constructor
  · intro h
    simp only [handleArrowUp]
    rw [if_neg (not_lt.mpr h)]
  · intro h
    simp only [handleArrowUp]
    rw [if_pos h]

/-- C4 witness: with base price 1000 and current bid 1500, Up yields 2000. -/
theorem arrowUp_increment_c4_witness :
    (handleArrowUp sampleAuctionState).bidAmount = sampleAuctionState.bidAmount + 500 :=
  (arrowUp_increment_c4 sampleAuctionState).1 (by decide)

/-- C10: closing the detail modal clears the pending success timeout, so a
timer fired afterwards changes nothing: no auto-advance, no overlay
dismissal, no bid update; and the Escape key routes through the same
close handler while the modal is open. -/
theorem closeModal_cancels_timer_c10 (s : PageState) (timerId : Nat) (timer : SuccessTimer) :
    (handleCloseModal s).successTimeout = Option.none ∧
    fireSuccessTimer timerId timer (handleCloseModal s) = handleCloseModal s ∧
    (s.isModalOpen = true → handleKeyDown s .escape = handleCloseModal s) := by
  refine ⟨rfl, ?_, ?_⟩
  · simp [fireSuccessTimer, handleCloseModal]
  · intro h
    simp [handleKeyDown, h]

/-- C10 witness: concrete closed state swallows a later timer firing. -/
theorem closeModal_cancels_timer_c10_witness :
    fireSuccessTimer 7 { delayMs := 4000, nextPlayerMobile := some "9000000002" }
        (handleCloseModal sampleAuctionState) = handleCloseModal sampleAuctionState ∧
    handleKeyDown sampleAuctionState .escape = handleCloseModal sampleAuctionState :=
  ⟨(closeModal_cancels_timer_c10 sampleAuctionState 7
      { delayMs := 4000, nextPlayerMobile := some "9000000002" }).2.1,
   (closeModal_cancels_timer_c10 sampleAuctionState 7
      { delayMs := 4000, nextPlayerMobile := some "9000000002" }).2.2 rfl⟩

/-- C7 counterexample: the frontend-details provider installs no interval
timer at all on mount, contradicting the claimed 3000 ms polling for both
providers. -/
theorem providers_polling_c7_counterexample :
    (frontendDetailsProviderMount false).didFetch = true ∧
    (frontendDetailsProviderMount false).pollIntervalMs ≠ some 3000 := by
  exact ⟨rfl, by decide⟩

/-- C7 amended: the owners provider fetches once on first mount under the
one-shot guard and installs a 3000 ms interval whose ticks fetch exactly
when the document is visible; the frontend-details provider fetches once
on first mount under the same guard and installs no interval. -/
theorem providers_polling_c7_amended (hidden : Bool) :
    ownersProviderMount false
      = { didFetch := true, fetchedFlag := true, pollIntervalMs := some 3000 } ∧
    (ownersProviderMount true).didFetch = false ∧
    ownersPollTick hidden = !hidden ∧
    frontendDetailsProviderMount false
      = { didFetch := true, fetchedFlag := true, pollIntervalMs := Option.none } ∧
    (frontendDetailsProviderMount true).didFetch = false := by
  exact ⟨rfl, rfl, rfl, rfl, rfl⟩

/-- C8: the gateway's endpoint table has the seven named entries, and for
every environment selection getApiUrl is the chosen base URL concatenated
with the endpoint's path, getApiUrlWithParams additionally appending the
encoded query parameters after a question mark. -/
theorem apiConfig_endpoints_c8 (envApiUrl : Option String) (useLocalhostVar : String)
    (e : Endpoint) (params : List (String × String)) :
    (endpointPath .register = "/api/register" ∧
     endpointPath .details = "/api/details" ∧
     endpointPath .checkMobile = "/api/check-mobile" ∧
     endpointPath .owners = "/api/owners" ∧
     endpointPath .owner = "/api/owner" ∧
     endpointPath .players = "/api/players" ∧
     endpointPath .frontendDetails = "/api/frontend-details") ∧
    getApiUrl (selectApiConfig envApiUrl useLocalhostVar) e
      = (selectApiConfig envApiUrl useLocalhostVar).baseUrl ++ endpointPath e ∧
    getApiUrlWithParams (selectApiConfig envApiUrl useLocalhostVar) e params
      = getApiUrl (selectApiConfig envApiUrl useLocalhostVar) e ++ "?"
          ++ encodeQueryParams params := by
  refine ⟨⟨rfl, rfl, rfl, rfl, rfl, rfl, rfl⟩, ?_, rfl⟩
  cases envApiUrl with
  | some url => rfl
  | none =>
    by_cases h : useLocalhostVar = "true" <;> simp [selectApiConfig, getApiUrl, h]

theorem findNext_eq_spec {players : List PlayerData} {i : Nat} {p : PlayerData}
    (hp : players[i]? = some p) (dir : NavDirection) :
    findNextPlayerInCategoryOrder players i dir = findNextSpec players p dir := by
  have hi : i < players.length := getElem?_some_lt hp
  have hne : players ≠ [] := by
    intro hc
    subst hc
    simp at hi
  have hle : ¬players.length ≤ i := by omega
  have h0 : ¬(players.length = 0 ∨ players.length ≤ i) := by omega
  by_cases hlen : (playersInCategory players (getPlayerCategoryId p)).length = 0
  · have hnil : playersInCategory players (getPlayerCategoryId p) = [] :=
      List.length_eq_zero.mp hlen
    simp [findNextPlayerInCategoryOrder, findNextSpec, h0, hne, hle, hp, hnil, findIdxO]
  · simp [findNextPlayerInCategoryOrder, findNextSpec, h0, hne, hle, hp, hlen]

theorem findNextSpec_sameCategory {players : List PlayerData} {i j : Nat} {p : PlayerData}
    {dir : NavDirection}
    (hnd : (players.map PlayerData.mobileNumber).Nodup)
    (hp : players[i]? = some p)
    (h : findNextSpec players p dir = some j) :
    ∃ q, players[j]? = some q ∧ getPlayerCategoryId q = getPlayerCategoryId p ∧ j ≠ i := by
  have hndc :
      ((playersInCategory players (getPlayerCategoryId p)).map PlayerData.mobileNumber).Nodup := by
    have hsub : List.Sublist (playersInCategory players (getPlayerCategoryId p)) players :=
      List.filter_sublist _
    exact hnd.sublist (hsub.map _)
  unfold findNextSpec at h
  cases hfi : findIdxO (fun q => q.mobileNumber == p.mobileNumber)
      (playersInCategory players (getPlayerCategoryId p)) with
  | none =>
    simp only [hfi] at h
    exact Option.noConfusion h
  | some k =>
    simp only [hfi] at h
    obtain ⟨ck, hck, hckm⟩ := findIdxO_some hfi
    have hck_eq : ck.mobileNumber = p.mobileNumber := by simpa using hckm
    cases dir with
    | next =>
      by_cases hk : k < (playersInCategory players (getPlayerCategoryId p)).length - 1
      · rw [if_pos hk] at h
        cases hnp : (playersInCategory players (getPlayerCategoryId p))[k + 1]? with
        | none =>
          simp only [hnp] at h
          exact Option.noConfusion h
        | some np =>
          simp only [hnp] at h
          rw [playerIndexMapGet,
            lastIdxO_eq_findIdxO_of_key_nodup PlayerData.mobileNumber np.mobileNumber players hnd] at h
          obtain ⟨q, hq, hqm⟩ := findIdxO_some h
          have hq_eq : q.mobileNumber = np.mobileNumber := by simpa using hqm
          have hnp_mem : np ∈ playersInCategory players (getPlayerCategoryId p) :=
            mem_of_getElem?_eq_some hnp
          have hnp_pl : np ∈ players := (List.mem_filter.mp hnp_mem).1
          have hnp_cat : getPlayerCategoryId np = getPlayerCategoryId p := by
            have := (List.mem_filter.mp hnp_mem).2
            simpa using this
          have hq_mem : q ∈ players := mem_of_getElem?_eq_some hq
          have hq_np : q = np :=
            key_nodup_mem_unique PlayerData.mobileNumber hnd hq_mem hnp_pl hq_eq
          refine ⟨q, hq, by rw [hq_np, hnp_cat], ?_⟩
          intro hji
          subst hji
          have hqp : q = p := by
            rw [hp] at hq
            exact (Option.some.inj hq).symm
          have hnp_p : np = p := by rw [← hq_np, hqp]
          have hkk : k = k + 1 :=
            key_nodup_getElem?_inj PlayerData.mobileNumber hndc hck hnp
              (by rw [hnp_p]; exact hck_eq)
          omega
      · rw [if_neg hk] at h
        simp at h
    | prev =>
      by_cases hk : 0 < k
      · rw [if_pos hk] at h
        cases hnp : (playersInCategory players (getPlayerCategoryId p))[k - 1]? with
        | none =>
          simp only [hnp] at h
          exact Option.noConfusion h
        | some np =>
          simp only [hnp] at h
          rw [playerIndexMapGet,
            lastIdxO_eq_findIdxO_of_key_nodup PlayerData.mobileNumber np.mobileNumber players hnd] at h
          obtain ⟨q, hq, hqm⟩ := findIdxO_some h
          have hq_eq : q.mobileNumber = np.mobileNumber := by simpa using hqm
          have hnp_mem : np ∈ playersInCategory players (getPlayerCategoryId p) :=
            mem_of_getElem?_eq_some hnp
          have hnp_pl : np ∈ players := (List.mem_filter.mp hnp_mem).1
          have hnp_cat : getPlayerCategoryId np = getPlayerCategoryId p := by
            have := (List.mem_filter.mp hnp_mem).2
            simpa using this
          have hq_mem : q ∈ players := mem_of_getElem?_eq_some hq
          have hq_np : q = np :=
            key_nodup_mem_unique PlayerData.mobileNumber hnd hq_mem hnp_pl hq_eq
          refine ⟨q, hq, by rw [hq_np, hnp_cat], ?_⟩
          intro hji
          subst hji
          have hqp : q = p := by
            rw [hp] at hq
            exact (Option.some.inj hq).symm
          have hnp_p : np = p := by rw [← hq_np, hqp]
          have hkk : k = k - 1 :=
            key_nodup_getElem?_inj PlayerData.mobileNumber hndc hck hnp
              (by rw [hnp_p]; exact hck_eq)
          omega
      · rw [if_neg hk] at h
        simp at h

/-- C3: category-scoped navigation from a focused player (with distinct
mobile numbers, the stable identifier of the data model) either leaves the
state unchanged or moves the cursor to a different player of the same
category; it is a no-op when the focused player is the last of its
category (for next) or the first (for previous). -/
theorem categoryNavigation_scoped_c3 (s : PageState) (i : Nat) (p : PlayerData)
    (hnd : (s.players.map PlayerData.mobileNumber).Nodup)
    (hsel : s.selectedPlayerIndex = some i)
    (hp : s.players[i]? = some p) :
    (handleNextPlayer s = s ∨
      ∃ j q, (handleNextPlayer s).selectedPlayerIndex = some j ∧ s.players[j]? = some q ∧
        getPlayerCategoryId q = getPlayerCategoryId p ∧ j ≠ i) ∧
    (handlePreviousPlayer s = s ∨
      ∃ j q, (handlePreviousPlayer s).selectedPlayerIndex = some j ∧ s.players[j]? = some q ∧
        getPlayerCategoryId q = getPlayerCategoryId p ∧ j ≠ i) ∧
    (categoryPosition s.players p
        = some ((playersInCategory s.players (getPlayerCategoryId p)).length - 1) →
      handleNextPlayer s = s) ∧
    (categoryPosition s.players p = some 0 → handlePreviousPlayer s = s) := by
  refine ⟨?_, ?_, ?_, ?_⟩
  · cases hfind : findNextPlayerInCategoryOrder s.players i .next with
    | none => exact Or.inl (by simp [handleNextPlayer, hsel, hfind])
    | some j =>
      refine Or.inr ?_
      have hs : findNextSpec s.players p .next = some j := by
        rw [← findNext_eq_spec hp .next]
        exact hfind
      obtain ⟨q, hq, hcat, hne⟩ := findNextSpec_sameCategory hnd hp hs
      have hjl : j < s.players.length := getElem?_some_lt hq
      exact ⟨j, q, by simp [handleNextPlayer, hsel, hfind, hjl, hq], hq, hcat, hne⟩
  · cases hfind : findNextPlayerInCategoryOrder s.players i .prev with
    | none => exact Or.inl (by simp [handlePreviousPlayer, hsel, hfind])
    | some j =>
      refine Or.inr ?_
      have hs : findNextSpec s.players p .prev = some j := by
        rw [← findNext_eq_spec hp .prev]
        exact hfind
      obtain ⟨q, hq, hcat, hne⟩ := findNextSpec_sameCategory hnd hp hs
      have hjl : j < s.players.length := getElem?_some_lt hq
      exact ⟨j, q, by simp [handlePreviousPlayer, hsel, hfind, hjl, hq], hq, hcat, hne⟩
  · intro hlast
    have hnone : findNextPlayerInCategoryOrder s.players i .next = none := by
      rw [findNext_eq_spec hp .next]
      unfold findNextSpec
      unfold categoryPosition at hlast
      rw [hlast]
      simp
    simp [handleNextPlayer, hsel, hnone]
  · intro hfirst
    have hnone : findNextPlayerInCategoryOrder s.players i .prev = none := by
      rw [findNext_eq_spec hp .prev]
      unfold findNextSpec
      unfold categoryPosition at hfirst
      rw [hfirst]
      simp
    simp [handlePreviousPlayer, hsel, hnone]

/-- C3 witness: with two players of one category loaded and the second
focused, next navigation is a no-op. -/
theorem categoryNavigation_scoped_c3_witness :
    handleNextPlayer sampleAuctionStateLast = sampleAuctionStateLast :=
  (categoryNavigation_scoped_c3 sampleAuctionStateLast 1 samplePlayerB
      (by decide) rfl (by decide)).2.2.1 (by decide)

/-- C1: on a successful owner assignment for the focused player, the
players refetch and owners refresh are both awaited before the 4000 ms
overlay timer is scheduled (effect order), the timer carries the
next-in-category mobile number captured at the moment of assignment, the
page state afterwards holds the refreshed list, and when the timer fires
it navigates to that player looked up by mobile number in the refreshed
list, closing the modal instead when the player is absent from it or
there was no next player in the category. -/
theorem ownerAssignment_refetch_then_advance_c1
    (s : PageState) (sel : PlayerData) (ownr : OwnerData)
    (refreshed : List PlayerData) (tid : Nat) (m : String) (j : Nat) (q : PlayerData)
    (hsel : selectedPlayer s = some sel) (hopen : s.isModalOpen = true) :
    (ownerSelectSuccessActions true
        = [.refetchPlayers, .refreshOwners, .showSuccessOverlay, .startSuccessTimer 4000]) ∧
    ((handleOwnerSelectSuccess s (some ownr) refreshed tid).snd
        = some { delayMs := 4000, nextPlayerMobile := nextPlayerMobileBefore s.players sel }) ∧
    ((handleOwnerSelectSuccess s (some ownr) refreshed tid).fst.players = refreshed) ∧
    ((handleOwnerSelectSuccess s (some ownr) refreshed tid).fst.successTimeout = some tid) ∧
    (nextPlayerMobileBefore s.players sel = some m →
      findIdxO (fun p => p.mobileNumber == m) refreshed = some j →
      refreshed[j]? = some q →
      (fireSuccessTimer tid { delayMs := 4000, nextPlayerMobile := some m }
          (handleOwnerSelectSuccess s (some ownr) refreshed tid).fst).selectedPlayerIndex
            = some j ∧
      (fireSuccessTimer tid { delayMs := 4000, nextPlayerMobile := some m }
          (handleOwnerSelectSuccess s (some ownr) refreshed tid).fst).isModalOpen = true ∧
      (fireSuccessTimer tid { delayMs := 4000, nextPlayerMobile := some m }
          (handleOwnerSelectSuccess s (some ownr) refreshed tid).fst).bidAmount
            = getBasePrice (some q) ∧
      (fireSuccessTimer tid { delayMs := 4000, nextPlayerMobile := some m }
          (handleOwnerSelectSuccess s (some ownr) refreshed tid).fst).successMessage
            = Option.none) ∧
    (findIdxO (fun p => p.mobileNumber == m) refreshed = Option.none →
      (fireSuccessTimer tid { delayMs := 4000, nextPlayerMobile := some m }
          (handleOwnerSelectSuccess s (some ownr) refreshed tid).fst).isModalOpen = false ∧
      (fireSuccessTimer tid { delayMs := 4000, nextPlayerMobile := some m }
          (handleOwnerSelectSuccess s (some ownr) refreshed tid).fst).selectedPlayerIndex
            = Option.none) ∧
    ((fireSuccessTimer tid { delayMs := 4000, nextPlayerMobile := Option.none }
          (handleOwnerSelectSuccess s (some ownr) refreshed tid).fst).isModalOpen = false ∧
      (fireSuccessTimer tid { delayMs := 4000, nextPlayerMobile := Option.none }
          (handleOwnerSelectSuccess s (some ownr) refreshed tid).fst).selectedPlayerIndex
            = Option.none) := by
  refine ⟨rfl, ?_, ?_, ?_, ?_, ?_, ?_⟩
  · simp [handleOwnerSelectSuccess, hsel]
  · simp [handleOwnerSelectSuccess, hsel]
  · simp [handleOwnerSelectSuccess, hsel]
  · intro hnext hfind hget
    refine ⟨?_, ?_, ?_, ?_⟩ <;>
      simp [handleOwnerSelectSuccess, hsel, fireSuccessTimer, advanceAfterSuccess,
        hfind, hget, hopen]
  · intro hfind
    constructor <;>
      simp [handleOwnerSelectSuccess, hsel, fireSuccessTimer, advanceAfterSuccess,
        hfind, handleCloseModal]
  · constructor <;>
      simp [handleOwnerSelectSuccess, hsel, fireSuccessTimer, advanceAfterSuccess,
        handleCloseModal]

/-- C1 witness: players A and B share one category, A is focused; after the
assignment the refreshed list retains only B, and the fired timer focuses
B with the bid counter reset to its base price. -/
theorem ownerAssignment_refetch_then_advance_c1_witness :
    (fireSuccessTimer 7 { delayMs := 4000, nextPlayerMobile := some "9000000002" }
        (handleOwnerSelectSuccess sampleAuctionState (some sampleOwner)
          [samplePlayerB] 7).fst).selectedPlayerIndex = some 0 ∧
    (fireSuccessTimer 7 { delayMs := 4000, nextPlayerMobile := some "9000000002" }
        (handleOwnerSelectSuccess sampleAuctionState (some sampleOwner)
          [samplePlayerB] 7).fst).isModalOpen = true ∧
    (fireSuccessTimer 7 { delayMs := 4000, nextPlayerMobile := some "9000000002" }
        (handleOwnerSelectSuccess sampleAuctionState (some sampleOwner)
          [samplePlayerB] 7).fst).bidAmount = getBasePrice (some samplePlayerB) ∧
    (fireSuccessTimer 7 { delayMs := 4000, nextPlayerMobile := some "9000000002" }
        (handleOwnerSelectSuccess sampleAuctionState (some sampleOwner)
          [samplePlayerB] 7).fst).successMessage = Option.none :=
  (ownerAssignment_refetch_then_advance_c1 sampleAuctionState samplePlayerA sampleOwner
      [samplePlayerB] 7 "9000000002" 0 samplePlayerB (by decide) rfl).2.2.2.2.1
    (by decide) (by decide) (by decide)

/-- C9 counterexample: a non-2xx players fetch whose JSON body carries a
message field still surfaces the fixed string, not the extracted
message. -/
theorem httpError_extraction_c9_counterexample :
    fetchPlayersErrorMessage
        { statusCode := 500, statusText := "Internal Server Error"
          body := some { message := some "Boom", error := Option.none } }
      = "Failed to fetch players" ∧
    ("Failed to fetch players" : String) ≠ "Boom" :=
  ⟨rfl, by decide⟩

/-- C9 amended: the owner-assignment and owner-registration error branches
extract the message field (else the error field, else their fixed default)
from a JSON body and fall back to the status text (else the default) when
the body does not parse, while the players fetch surfaces the fixed
message for every non-2xx response. -/
theorem httpError_extraction_c9_amended (resp : HttpErrorResponse) (b : HttpErrorBody)
    (m e : String) :
    (resp.body = some b → b.message = some m → m ≠ "" →
      handleOwnerSelectErrorMessage resp = m ∧ ownerRegistrationErrorMessage resp = m) ∧
    (resp.body = some b → b.message = Option.none → b.error = some e → e ≠ "" →
      handleOwnerSelectErrorMessage resp = e ∧ ownerRegistrationErrorMessage resp = e) ∧
    (resp.body = Option.none → resp.statusText ≠ "" →
      handleOwnerSelectErrorMessage resp = resp.statusText ∧
      ownerRegistrationErrorMessage resp = resp.statusText) ∧
    (resp.body = Option.none → resp.statusText = "" →
      handleOwnerSelectErrorMessage resp = "Failed to assign owner" ∧
      ownerRegistrationErrorMessage resp = "Failed to submit owner registration") ∧
    fetchPlayersErrorMessage resp = "Failed to fetch players" := by
  refine ⟨?_, ?_, ?_, ?_, rfl⟩
  · intro hb hm hm'
    constructor <;>
      simp [handleOwnerSelectErrorMessage, ownerRegistrationErrorMessage,
        extractHttpErrorMessage, jsOr, hb, hm, hm']
  · intro hb hm he he'
    constructor <;>
      simp [handleOwnerSelectErrorMessage, ownerRegistrationErrorMessage,
        extractHttpErrorMessage, jsOr, hb, hm, he, he']
  · intro hb hst
    constructor <;>
      simp [handleOwnerSelectErrorMessage, ownerRegistrationErrorMessage,
        extractHttpErrorMessage, jsOr, hb, hst]
  · intro hb hst
    constructor <;>
      simp [handleOwnerSelectErrorMessage, ownerRegistrationErrorMessage,
        extractHttpErrorMessage, jsOr, hb, hst]

/-- C9 amended witness: a concrete 400 response with a message body. -/
theorem httpError_extraction_c9_amended_witness :
    handleOwnerSelectErrorMessage
        { statusCode := 400, statusText := "Bad Request"
          body := some { message := some "Player already sold", error := Option.none } }
      = "Player already sold" ∧
    ownerRegistrationErrorMessage
        { statusCode := 400, statusText := "Bad Request"
          body := some { message := some "Player already sold", error := Option.none } }
      = "Player already sold" :=
  (httpError_extraction_c9_amended
      { statusCode := 400, statusText := "Bad Request"
        body := some { message := some "Player already sold", error := Option.none } }
      { message := some "Player already sold", error := Option.none }
      "Player already sold" "unused").1 rfl rfl (by decide)

theorem lookupFormError_append_eq_none (l1 l2 : FormErrors) (k : String) :
    lookupFormError (l1 ++ l2) k = Option.none ↔
      lookupFormError l1 k = Option.none ∧ lookupFormError l2 k = Option.none := by
  simp only [lookupFormError, List.find?_append, Option.map_eq_none']
  cases l1.find? (fun e => e.fst == k) <;>
    cases l2.find? (fun e => e.fst == k) <;> simp [Option.or]

theorem lookupFormError_errEntry_self (k : String) (v : Option String) :
    lookupFormError (errEntry k v) k = v := by
  cases v <;> simp [errEntry, lookupFormError]

theorem lookup_setFormError_self (errors : FormErrors) (k msg : String) :
    lookupFormError (setFormError errors k msg) k = some msg := by
  simp [setFormError, lookupFormError]

/-- C5 counterexample: submitting the player form with an empty required
first name records no inline error for it (the submit handler only opens
the closed-registration modal); the claimed field-specific inline error is
absent even though no network request is issued. -/
theorem registration_validation_c5_counterexample :
    jsTrim cexPlayerFormData.firstName = "" ∧
    (handleSubmitClosed cexPlayerFormState).networkRequestIssued = false ∧
    lookupFormError (handleSubmitClosed cexPlayerFormState).state.errors "firstName"
      = Option.none :=
  ⟨rfl, rfl, rfl⟩

/-- C5 amended: the owner form blocks an invalid submission with a
field-specific inline error and no network request, and its validateForm
records an entry for every empty required field and for a file breaking
the type or size constraint; the player form's submit handler issues no
network request on any submission and records no field errors (it opens
the closed-registration modal instead), its validateForm, when invoked by
the full-submission variant, blocks the request with an entry for every
empty required field, and its file-selection handler rejects an oversized
file with the inline size error. -/
theorem registration_validation_c5_amended (s : RegFormState) (fd : OwnerFormData)
    (k key : String) (errors : FormErrors) (f : FileMeta) :
    ((handleSubmitClosed s).networkRequestIssued = false ∧
     (handleSubmitClosed s).state.errors = s.errors ∧
     (handleSubmitClosed s).state.showSarcasmModal = true) ∧
    (ownerValidateForm fd ≠ [] →
      (ownerHandleSubmit fd).networkRequestIssued = false ∧
      (ownerHandleSubmit fd).errors = ownerValidateForm fd) ∧
    (ownerRequiredViolation fd k →
      lookupFormError (ownerValidateForm fd) k ≠ Option.none) ∧
    (playerValidateForm s.formData s.mobileNumberStatus ≠ [] →
      (handleSubmitFull s).networkRequestIssued = false ∧
      (handleSubmitFull s).state.errors
        = playerValidateForm s.formData s.mobileNumberStatus) ∧
    (playerRequiredViolation s.formData k →
      lookupFormError (playerValidateForm s.formData s.mobileNumberStatus) k
        ≠ Option.none) ∧
    (5 * 1024 * 1024 < f.size →
      (playerHandleFileChange errors key f).snd = false ∧
      lookupFormError (playerHandleFileChange errors key f).fst key
        = some "File size should be less than 5MB") := by
  refine ⟨⟨rfl, rfl, rfl⟩, ?_, ?_, ?_, ?_, ?_⟩
  · intro h
    cases hne : ownerValidateForm fd with
    | nil => exact absurd hne h
    | cons a as => constructor <;> simp [ownerHandleSubmit, hne]
  · intro hv hn
    rw [ownerValidateForm] at hn
    simp only [lookupFormError_append_eq_none, and_assoc] at hn
    rcases hv with ⟨rfl, hc⟩ | ⟨rfl, hc⟩ | ⟨rfl, hc⟩ | ⟨rfl, hc⟩ | ⟨rfl, hc⟩ | ⟨rfl, hc⟩
      | ⟨rfl, hc⟩ | ⟨rfl, hc⟩
    · have h1 := hn.1
      rw [lookupFormError_errEntry_self, if_pos hc] at h1
      exact Option.noConfusion h1
    · have h1 := hn.2.1
      rw [lookupFormError_errEntry_self] at h1
      unfold ownerEmailError at h1
      rw [if_pos hc] at h1
      exact Option.noConfusion h1
    · have h1 := hn.2.2.1
      rw [lookupFormError_errEntry_self] at h1
      unfold ownerPhoneError at h1
      rw [if_pos hc] at h1
      exact Option.noConfusion h1
    · have h1 := hn.2.2.2.1
      rw [lookupFormError_errEntry_self] at h1
      unfold ownerBioError at h1
      rw [if_pos hc] at h1
      exact Option.noConfusion h1
    · have h1 := hn.2.2.2.2.1
      rw [lookupFormError_errEntry_self, if_pos hc] at h1
      exact Option.noConfusion h1
    · have h1 := hn.2.2.2.2.2.1
      rw [lookupFormError_errEntry_self, if_pos hc] at h1
      exact Option.noConfusion h1
    · have h1 := hn.2.2.2.2.2.2.1
      rw [lookupFormError_errEntry_self] at h1
      unfold ownerPurseError at h1
      rw [if_pos hc] at h1
      exact Option.noConfusion h1
    · have h1 := hn.2.2.2.2.2.2.2
      rw [lookupFormError_errEntry_self] at h1
      rcases hc with hcn | ⟨fimg, hf, hbad⟩
      · rw [hcn] at h1
        simp [ownerImageError] at h1
      · rw [hf] at h1
        simp only [ownerImageError] at h1
        rcases hbad with hsz | hty
        · rw [if_pos hsz] at h1
          exact Option.noConfusion h1
        · by_cases hsz : 5 * 1024 * 1024 < fimg.size
          · rw [if_pos hsz] at h1
            exact Option.noConfusion h1
          · rw [if_neg hsz, if_pos (by rw [hty]; rfl)] at h1
            exact Option.noConfusion h1
  · intro h
    cases hne : playerValidateForm s.formData s.mobileNumberStatus with
    | nil => exact absurd hne h
    | cons a as => constructor <;> simp [handleSubmitFull, hne]
  · intro hv hn
    rw [playerValidateForm] at hn
    simp only [lookupFormError_append_eq_none, and_assoc] at hn
    rcases hv with ⟨rfl, hc⟩ | ⟨rfl, hc⟩ | ⟨rfl, hc⟩ | ⟨rfl, hc⟩ | ⟨rfl, hc⟩ | ⟨rfl, hc⟩
      | ⟨rfl, hc⟩ | ⟨rfl, hc⟩ | ⟨rfl, hc⟩ | ⟨rfl, hc⟩
    · have h1 := hn.1
      rw [lookupFormError_errEntry_self, if_pos hc] at h1
      exact Option.noConfusion h1
    · have h1 := hn.2.1
      rw [lookupFormError_errEntry_self, if_pos hc] at h1
      exact Option.noConfusion h1
    · have h1 := hn.2.2.1
      rw [lookupFormError_errEntry_self] at h1
      unfold playerMobileError at h1
      rw [if_pos hc] at h1
      exact Option.noConfusion h1
    · have h1 := hn.2.2.2.1
      rw [lookupFormError_errEntry_self, if_pos hc] at h1
      exact Option.noConfusion h1
    · have h1 := hn.2.2.2.2.1
      rw [lookupFormError_errEntry_self] at h1
      unfold playerTshirtNameError at h1
      rw [if_pos hc] at h1
      exact Option.noConfusion h1
    · have h1 := hn.2.2.2.2.2.1
      rw [lookupFormError_errEntry_self] at h1
      unfold playerTshirtNumberError at h1
      rw [if_pos hc] at h1
      exact Option.noConfusion h1
    · have h1 := hn.2.2.2.2.2.2.1
      rw [lookupFormError_errEntry_self, if_pos hc] at h1
      exact Option.noConfusion h1
    · have h1 := hn.2.2.2.2.2.2.2.1
      rw [lookupFormError_errEntry_self, if_pos hc] at h1
      exact Option.noConfusion h1
    · have h1 := hn.2.2.2.2.2.2.2.2.1
      rw [lookupFormError_errEntry_self, if_pos hc] at h1
      exact Option.noConfusion h1
    · have h1 := hn.2.2.2.2.2.2.2.2.2
      rw [lookupFormError_errEntry_self, if_pos hc] at h1
      exact Option.noConfusion h1
  · intro hsz
    constructor
    · simp [playerHandleFileChange, hsz]
    · simp [playerHandleFileChange, hsz, lookup_setFormError_self]

/-- C5 amended witness: the owner form with an empty name blocks the
submission, records the name error, and issues no request. -/
theorem registration_validation_c5_amended_witness :
    (ownerHandleSubmit cexOwnerFormData).networkRequestIssued = false ∧
    lookupFormError (ownerValidateForm cexOwnerFormData) "name" ≠ Option.none :=
  ⟨((registration_validation_c5_amended cexPlayerFormState cexOwnerFormData "name" "k"
        [] { size := 0, mimeType := "image/png" }).2.1 (by decide)).1,
   (registration_validation_c5_amended cexPlayerFormState cexOwnerFormData "name" "k"
        [] { size := 0, mimeType := "image/png" }).2.2.1 (Or.inl ⟨rfl, by decide⟩)⟩

theorem errEntry_eq_nil_iff (k : String) (v : Option String) :
    errEntry k v = [] ↔ v = Option.none := by
  cases v <;> simp [errEntry]

theorem playerMobileError_exists_ne_none (m : String) :
    playerMobileError m .exists_ ≠ Option.none := by
  intro h
  unfold playerMobileError at h
  split at h
  · exact Option.noConfusion h
  · split at h
    · exact Option.noConfusion h
    · split at h
      · exact Option.noConfusion h
      · rw [if_pos rfl] at h
        exact Option.noConfusion h

/-- C6 counterexample: even with every field valid and the check-mobile
response confirming the number absent (status available), the player
form's submit handler issues no registration request, so submission is
not in fact permitted. -/
theorem mobileCheck_gating_c6_counterexample :
    applyCheckMobileResponse
        { ok := true, statusCode := 200, body := some { existsFlag := some false } }
        { mobileNumberStatus := .checking, errors := [] }
      = { mobileNumberStatus := .available, errors := [] } ∧
    playerValidateForm validPlayerFormData .available = [] ∧
    (handleSubmitClosed validPlayerFormState).networkRequestIssued = false := by
  exact ⟨by decide, by decide, rfl⟩

/-- C6 amended: an existing-number response records status exists together
with the already-registered inline error, an absent-number response
records status available and clears that error; the cited form's submit
handler issues no request regardless (registration is closed), while in
the full-submission variant validateForm blocks the request whenever the
status is exists and permits it when validation passes. -/
theorem mobileCheck_gating_c6_amended (st : CheckMobileState) (code : Nat)
    (s : RegFormState) :
    (applyCheckMobileResponse
        { ok := true, statusCode := code, body := some { existsFlag := some true } } st
       = { mobileNumberStatus := .exists_
           errors := setFormError st.errors "mobileNumber" alreadyRegisteredMsg }) ∧
    lookupFormError (setFormError st.errors "mobileNumber" alreadyRegisteredMsg)
        "mobileNumber" = some alreadyRegisteredMsg ∧
    (applyCheckMobileResponse
        { ok := true, statusCode := code, body := some { existsFlag := some false } } st
       = { mobileNumberStatus := .available, errors := clearAlreadyRegistered st.errors }) ∧
    (handleSubmitClosed s).networkRequestIssued = false ∧
    (s.mobileNumberStatus = .exists_ → (handleSubmitFull s).networkRequestIssued = false) ∧
    (playerValidateForm s.formData s.mobileNumberStatus = [] →
      (handleSubmitFull s).networkRequestIssued = true) := by
  refine ⟨rfl, lookup_setFormError_self st.errors "mobileNumber" alreadyRegisteredMsg,
    rfl, rfl, ?_, ?_⟩
  · intro hst
    cases hne : playerValidateForm s.formData s.mobileNumberStatus with
    | cons a as => simp [handleSubmitFull, hne]
    | nil =>
      exfalso
      rw [playerValidateForm] at hne
      simp only [List.append_eq_nil, and_assoc] at hne
      have h3 := hne.2.2.1
      rw [errEntry_eq_nil_iff] at h3
      rw [hst] at h3
      exact playerMobileError_exists_ne_none _ h3
  · intro hval
    simp [handleSubmitFull, hval]

/-- C6 amended witness: the full-variant submit is blocked with status
exists and goes through with everything valid and status available. -/
theorem mobileCheck_gating_c6_amended_witness :
    (handleSubmitFull existsPlayerFormState).networkRequestIssued = false ∧
    (handleSubmitFull validPlayerFormState).networkRequestIssued = true :=
  ⟨(mobileCheck_gating_c6_amended { mobileNumberStatus := .idle, errors := [] } 200
      existsPlayerFormState).2.2.2.2.1 rfl,
   (mobileCheck_gating_c6_amended { mobileNumberStatus := .idle, errors := [] } 200
      validPlayerFormState).2.2.2.2.2 (by decide)⟩

end MPL
